import Mathlib

/-!
Verification development for the Watermarking-Tool repository.

The repository is a small Node/Express service: `server.js` exposes
`POST /api/watermark` (multer upload of one PDF, a comma-delimited
`watermarks` field and five numeric appearance fields), and the watermark
service module provides `createWatermarkPdf`, `applyWatermark` and
`processMultipleWatermarks`.  The definitions below are a shallow
embedding of that code: strings are Lean `String`s (worked on as
`List Char`), JS numbers are exact rationals `ℚ`, filesystem and remote
calls are recorded in an explicit effect trace, and the remote Adobe
compositing call is a parameter `comp` that may fail (`Except`).
-/

/-- Character codes that match the JavaScript regex class `\s`
(whitespace used by `String.prototype.trim` and the `\s` in the
sanitizing regexes): tab, LF, VT, FF, CR, space, NBSP, Ogham space,
the U+2000–U+200A range, LS, PS, NNBSP, MMSP, ideographic space, BOM. -/
def isJsSpaceCode (n : Nat) : Bool :=
  n = 32 || n = 9 || n = 10 || n = 11 || n = 12 || n = 13 ||
  n = 0xa0 || n = 0x1680 || (0x2000 ≤ n && n ≤ 0x200a) ||
  n = 0x2028 || n = 0x2029 || n = 0x202f || n = 0x205f ||
  n = 0x3000 || n = 0xfeff

/-- Whether a character is JavaScript whitespace (`\s`). -/
def jsWhitespace (c : Char) : Bool :=
  isJsSpaceCode c.toNat

/-- Character codes matched by `[a-zA-Z0-9]`. -/
def isAlnumCode (n : Nat) : Bool :=
  (97 ≤ n && n ≤ 122) || (65 ≤ n && n ≤ 90) || (48 ≤ n && n ≤ 57)

/-- Whether a character matches `[a-zA-Z0-9]`. -/
def isAlnum (c : Char) : Bool :=
  isAlnumCode c.toNat

/-- Whether a character is an ASCII decimal digit (`[0-9]`). -/
def isDigitChar (c : Char) : Bool :=
  48 ≤ c.toNat && c.toNat ≤ 57

/-- Trimming on character lists: drop JS whitespace from the front,
then from the back (via reverse).  Embeds `String.prototype.trim`. -/
def trimList (l : List Char) : List Char :=
  (((l.dropWhile jsWhitespace).reverse.dropWhile jsWhitespace)).reverse

/-- Embeds `s.trim()` from the JavaScript source. -/
def jsTrim (s : String) : String :=
  ⟨trimList s.toList⟩

/-- First step of the filename sanitizer in `processMultipleWatermarks`:
`text.replace(/[^a-zA-Z0-9\s]/g, '')` keeps exactly the alphanumeric and
whitespace characters. -/
def stripDisallowed (l : List Char) : List Char :=
  l.filter (fun c => isAlnum c || jsWhitespace c)

/-- Second step of the sanitizer, `.replace(/\s+/g, '_')`: every maximal
run of whitespace becomes a single underscore.  The boolean argument
records whether the previous character was part of a whitespace run. -/
def collapseWsAux : Bool → List Char → List Char
  | _, [] => []
  | prevWs, c :: cs =>
    if jsWhitespace c then
      (if prevWs then [] else ['_']) ++ collapseWsAux true cs
    else
      c :: collapseWsAux false cs

/-- Collapse whitespace runs to underscores (`.replace(/\s+/g, '_')`). -/
def collapseWs (l : List Char) : List Char :=
  collapseWsAux false l

/-- The sanitizer on character lists:
`text.replace(/[^a-zA-Z0-9\s]/g, '').replace(/\s+/g, '_')`. -/
def sanitizeList (l : List Char) : List Char :=
  collapseWs (stripDisallowed l)

/-- Filename sanitization from `processMultipleWatermarks`: strip the
characters outside `[a-zA-Z0-9\s]`, then collapse whitespace runs to
underscores. -/
def sanitize (s : String) : String :=
  ⟨sanitizeList s.toList⟩

/-- Splitting a character list on commas, matching the semantics of the
JavaScript `watermarks.split(',')`: the empty string yields one empty
field, and consecutive commas yield empty fields. -/
def splitCommaList : List Char → List (List Char)
  | [] => [[]]
  | c :: cs =>
    if c = ',' then [] :: splitCommaList cs
    else
      match splitCommaList cs with
      | [] => [[c]]
      | h :: t => (c :: h) :: t

/-- Embeds `watermarks.split(',')`. -/
def jsSplitComma (s : String) : List String :=
  (splitCommaList s.toList).map (fun l => ⟨l⟩)

/-- Embeds `path.basename`: the part of the path after the last `/`.
The paths built by this service always end in `<name>.pdf` with no
trailing slash, so stripping of trailing separators is not needed. -/
def basename (p : String) : String :=
  ⟨((p.toList.reverse).takeWhile (fun c => decide (¬ c = '/'))).reverse⟩

/-- Embeds `watermarkText.toUpperCase()` on the ASCII range (the only
characters exercised by this development; `Char.toUpper` uppercases
exactly the ASCII letters). -/
def jsToUpper (s : String) : String :=
  ⟨s.toList.map Char.toUpper⟩

example : sanitize "For Alice" = "For_Alice" := by decide
example : sanitize "For Alice!" = "For_Alice" := by decide
example : jsTrim "  For Bob " = "For Bob" := by decide
example : jsSplitComma "For Alice, For Bob" = ["For Alice", " For Bob"] := by decide
example : basename "output/s1/For_Alice.pdf" = "For_Alice.pdf" := by decide
example : jsToUpper "For Alice" = "FOR ALICE" := by decide

/-- A JavaScript number as produced by `parseInt`/`parseFloat` in this
service: either `NaN` or a finite value, modelled as an exact rational.
(Floating-point rounding and the `Infinity` literal are outside the
scope of this model; the request values exercised here are finite.) -/
inductive JsNum where
  | nan : JsNum
  | num (q : ℚ) : JsNum
deriving DecidableEq, Repr

/-- Decimal value of a digit list (most significant first). -/
def digitsVal (l : List Char) : Nat :=
  l.foldl (fun a c => a * 10 + (c.toNat - 48)) 0

/-- Whether a character is a hexadecimal digit. -/
def isHexDigitChar (c : Char) : Bool :=
  isDigitChar c || (97 ≤ c.toNat && c.toNat ≤ 102) || (65 ≤ c.toNat && c.toNat ≤ 70)

/-- Value of one hexadecimal digit. -/
def hexDigitVal (c : Char) : Nat :=
  if 48 ≤ c.toNat && c.toNat ≤ 57 then c.toNat - 48
  else if 97 ≤ c.toNat then c.toNat - 87
  else c.toNat - 55

/-- Hexadecimal value of a digit list (most significant first). -/
def hexDigitsVal (l : List Char) : Nat :=
  l.foldl (fun a c => a * 16 + hexDigitVal c) 0

/-- Digit parsing stage of `parseInt` (default radix): a `0x`/`0X`
prefix switches to hexadecimal, otherwise the longest leading run of
decimal digits is taken; no digits at all gives `NaN`. -/
def jsParseIntDigits (sign : ℚ) (cs : List Char) : JsNum :=
  match cs with
  | '0' :: 'x' :: rest =>
    let hs := rest.takeWhile isHexDigitChar
    if hs = [] then JsNum.nan else JsNum.num (sign * (hexDigitsVal hs : ℚ))
  | '0' :: 'X' :: rest =>
    let hs := rest.takeWhile isHexDigitChar
    if hs = [] then JsNum.nan else JsNum.num (sign * (hexDigitsVal hs : ℚ))
  | _ =>
    let ds := cs.takeWhile isDigitChar
    if ds = [] then JsNum.nan else JsNum.num (sign * (digitsVal ds : ℚ))

/-- Embeds JavaScript `parseInt(s)` (no radix argument): skip leading
whitespace, read an optional sign, then parse digits. -/
def jsParseInt (s : String) : JsNum :=
  let cs := s.toList.dropWhile jsWhitespace
  match cs with
  | '-' :: rest => jsParseIntDigits (-1) rest
  | '+' :: rest => jsParseIntDigits 1 rest
  | _ => jsParseIntDigits 1 cs

/-- Optional exponent part of a decimal literal: `e`/`E`, an optional
sign and digits scale the mantissa; an incomplete exponent is ignored
(the longest valid literal prefix wins, as in `parseFloat`). -/
def applyExponent (m : ℚ) (r : List Char) : ℚ :=
  let signedPart : Int × List Char :=
    match r with
    | 'e' :: '-' :: rest => (-1, rest)
    | 'e' :: '+' :: rest => (1, rest)
    | 'e' :: rest => (1, rest)
    | 'E' :: '-' :: rest => (-1, rest)
    | 'E' :: '+' :: rest => (1, rest)
    | 'E' :: rest => (1, rest)
    | _ => (0, [])
  match r with
  | 'e' :: _ | 'E' :: _ =>
    let es := signedPart.2.takeWhile isDigitChar
    if es = [] then m else m * (10 : ℚ) ^ (signedPart.1 * (digitsVal es : Int))
  | _ => m

/-- Embeds JavaScript `parseFloat(s)` on finite decimal literals: skip
leading whitespace, read an optional sign, then the longest prefix of
the form `digits [. digits] [exponent]` or `. digits [exponent]`;
no such prefix gives `NaN`. -/
def jsParseFloat (s : String) : JsNum :=
  let cs := s.toList.dropWhile jsWhitespace
  let signed : ℚ × List Char :=
    match cs with
    | '-' :: rest => (-1, rest)
    | '+' :: rest => (1, rest)
    | _ => (1, cs)
  let ds := signed.2.takeWhile isDigitChar
  let r1 := signed.2.dropWhile isDigitChar
  match r1 with
  | '.' :: r2 =>
    let fs := r2.takeWhile isDigitChar
    if ds = [] ∧ fs = [] then JsNum.nan
    else
      JsNum.num (signed.1 *
        applyExponent ((digitsVal ds : ℚ) + (digitsVal fs : ℚ) / (10 : ℚ) ^ fs.length)
          (r2.dropWhile isDigitChar))
  | _ =>
    if ds = [] then JsNum.nan
    else JsNum.num (signed.1 * applyExponent (digitsVal ds : ℚ) r1)

/-- `parseInt` applied to a request body field: an absent field is the
JS `undefined`, which stringifies to `"undefined"` and parses to `NaN`. -/
def jsParseIntField : Option String → JsNum
  | none => JsNum.nan
  | some s => jsParseInt s

/-- `parseFloat` applied to a request body field (absent gives `NaN`). -/
def jsParseFloatField : Option String → JsNum
  | none => JsNum.nan
  | some s => jsParseFloat s

/-- The JavaScript `||` fallback on a parsed number: `NaN` and `0` are
falsy, so both select the default. -/
def jsOr (v : JsNum) (d : ℚ) : ℚ :=
  match v with
  | JsNum.nan => d
  | JsNum.num q => if q = 0 then d else q

example : jsParseInt "30" = JsNum.num 30 := by with_unfolding_all rfl
example : jsParseInt "abc" = JsNum.nan := by with_unfolding_all rfl
example : jsParseInt " -12px" = JsNum.num (-12) := by with_unfolding_all rfl
example : jsParseInt "0x10" = JsNum.num 16 := by with_unfolding_all rfl
example : jsParseFloat "0.5" = JsNum.num (1/2) := by with_unfolding_all rfl
example : jsParseFloat "" = JsNum.nan := by with_unfolding_all rfl
example : jsParseFloat "2.5e1" = JsNum.num 25 := by with_unfolding_all rfl
example : jsOr JsNum.nan 30 = 30 := by with_unfolding_all rfl
example : jsOr (JsNum.num 0) 55 = 55 := by with_unfolding_all rfl
example : jsOr (JsNum.num 7) 55 = 7 := by with_unfolding_all rfl

/-- The resolved watermark options built by the server
(`server.js` lines 90–96). -/
structure Options where
  fontSize : ℚ
  angle : ℚ
  opacity : ℚ
  posX : ℚ
  posY : ℚ
deriving DecidableEq, Repr

/-- An uploaded file as seen by the multer middleware: only the MIME
type matters to the control flow modelled here (the buffer is consumed
opaquely by the compositor parameter). -/
structure Upload where
  mimetype : String
deriving DecidableEq, Repr

/-- The multipart request body of `POST /api/watermark`: the uploaded
file (if any) and the raw string form fields; an absent field is
`none` (JS `undefined`). -/
structure RawRequest where
  file : Option Upload
  watermarks : Option String
  fontSize : Option String
  angle : Option String
  opacity : Option String
  posX : Option String
  posY : Option String
deriving DecidableEq, Repr

/-- Embeds the options object of `server.js`:
`{ fontSize: parseInt(req.body.fontSize) || 30, angle: parseInt(req.body.angle) || 55,
   opacity: parseFloat(req.body.opacity) || 0.5, posX: parseFloat(req.body.posX) || 50,
   posY: parseFloat(req.body.posY) || 50 }`. -/
def buildOptions (req : RawRequest) : Options :=
  { fontSize := jsOr (jsParseIntField req.fontSize) 30
    angle := jsOr (jsParseIntField req.angle) 55
    opacity := jsOr (jsParseFloatField req.opacity) (1/2)
    posX := jsOr (jsParseFloatField req.posX) 50
    posY := jsOr (jsParseFloatField req.posY) 50 }

/-- Width and height of one page of the parsed source PDF
(`page.getSize()`). -/
structure PageSize where
  width : ℚ
  height : ℚ
deriving DecidableEq, Repr

/-- The `options` argument of `createWatermarkPdf`: each field may be
absent, in which case the destructuring defaults
`{fontSize = 30, angle = 55, opacity = 0.5, posX = 50, posY = 50}`
apply. -/
structure CreateOptions where
  fontSize : Option ℚ
  angle : Option ℚ
  opacity : Option ℚ
  posX : Option ℚ
  posY : Option ℚ
deriving DecidableEq, Repr

/-- One `page.drawText` call recorded in the overlay model: the drawn
string and the keyword arguments passed in `createWatermarkPdf`. -/
structure DrawnText where
  text : String
  x : ℚ
  y : ℚ
  size : ℚ
  font : String
  colorR : ℚ
  colorG : ℚ
  colorB : ℚ
  opacity : ℚ
  rotate : ℚ
deriving DecidableEq, Repr

/-- One page of the generated overlay document: its dimensions and the
text drawn on it. -/
structure OverlayPage where
  width : ℚ
  height : ℚ
  drawn : List DrawnText
deriving DecidableEq, Repr

/-- Embeds `createWatermarkPdf` from the watermark service module: the
source document (already parsed into its page sizes), one phrase and
the appearance options produce a document with a single page sized like
the reference page `pages[min(2, pages.length - 1)]`, carrying the
uppercased phrase drawn at `(posX/100 * width, posY/100 * height)` in
Times Roman.  `none` is the runtime error raised when the source has no
page at the reference index (empty document). -/
def createWatermarkPdf (sourcePages : List PageSize) (watermarkText : String)
    (options : CreateOptions) : Option (List OverlayPage) :=
  let fontSize := options.fontSize.getD 30
  let angle := options.angle.getD 55
  let opacity := options.opacity.getD (1/2)
  let posX := options.posX.getD 50
  let posY := options.posY.getD 50
  let refPageIndex := min 2 (sourcePages.length - 1)
  match sourcePages[refPageIndex]? with
  | none => none
  | some ref =>
    let x := posX / 100 * ref.width
    let y := posY / 100 * ref.height
    some [{ width := ref.width, height := ref.height,
            drawn := [{ text := jsToUpper watermarkText, x := x, y := y,
                        size := fontSize, font := "TimesRoman",
                        colorR := 1/2, colorG := 1/2, colorB := 1/2,
                        opacity := opacity, rotate := angle }] }]

/-- Filesystem and remote-service actions performed by the server,
recorded as an explicit trace.  `applyWatermarkCall` is one invocation
of `applyWatermark` (overlay build, Adobe upload/submit/poll/fetch and
the write of the composited result to `outPath`); the removal effects
carry the delay in milliseconds (`0` = immediate, `5000` = the
`setTimeout` cleanup after the response stream ends). -/
inductive Effect where
  | mkdirSession : Effect
  | applyWatermarkCall (phrase : String) (outPath : String) : Effect
  | removeSessionDir (delayMs : Nat) : Effect
  | removeZipFile (delayMs : Nat) : Effect
deriving DecidableEq, Repr

/-- The per-phrase loop of `processMultipleWatermarks`: trim the phrase,
skip it when empty, otherwise derive the sanitized output path and call
`applyWatermark` (the compositor `comp`, which may fail like the Adobe
calls).  Returns the effect trace and either the collected output paths
in order or the first error. -/
def pmwLoop (comp : String → Except String Unit) (dir : String) :
    List String → List Effect × Except String (List String)
  | [] => ([], Except.ok [])
  | t :: ts =>
    let text := jsTrim t
    if text = "" then pmwLoop comp dir ts
    else
      let outputPath := dir ++ "/" ++ sanitize text ++ ".pdf"
      match comp text with
      | Except.error e => ([Effect.applyWatermarkCall text outputPath], Except.error e)
      | Except.ok _ =>
        match pmwLoop comp dir ts with
        | (effs, Except.ok ps) =>
          (Effect.applyWatermarkCall text outputPath :: effs, Except.ok (outputPath :: ps))
        | (effs, Except.error e) =>
          (Effect.applyWatermarkCall text outputPath :: effs, Except.error e)

/-- Embeds `processMultipleWatermarks(inputPdfBuffer, watermarkTexts,
outputDir, options)`: create the session directory, then process the
phrases strictly sequentially.  The input buffer and options live
inside the compositor parameter `comp`. -/
def processMultipleWatermarks (comp : String → Except String Unit)
    (watermarkTexts : List String) (outputDir : String) :
    List Effect × Except String (List String) :=
  let r := pmwLoop comp outputDir watermarkTexts
  (Effect.mkdirSession :: r.1, r.2)

/-- The HTTP response of `POST /api/watermark`: a JSON error body
(`badRequest` is `{error}` with status 400, `serverError` is
`{error, details?}` with status 500), a directly streamed PDF with its
`Content-Disposition` filename, or a streamed ZIP with its generated
filename and the ordered entry names passed to `archive.file`. -/
inductive Response where
  | badRequest (error : String) : Response
  | serverError (error : String) (details : Option String) : Response
  | pdfFile (contentType : String) (filename : String) (path : String) : Response
  | zipArchive (contentType : String) (filename : String) (entries : List String) : Response
deriving DecidableEq, Repr

/-- HTTP status code of a modelled response. -/
def Response.status : Response → Nat
  | Response.badRequest _ => 400
  | Response.serverError _ _ => 500
  | Response.pdfFile _ _ _ => 200
  | Response.zipArchive _ _ _ => 200

/-- Whether a response is a 400 validation rejection carrying a JSON
`{error: string}` body. -/
def Response.isBadRequest : Response → Bool
  | Response.badRequest _ => true
  | _ => false

/-- Parsing of the `watermarks` field (`server.js` lines 80–83):
`watermarks.split(',').map(w => w.trim()).filter(w => w.length > 0)`. -/
def parsePhrases (w : String) : List String :=
  ((jsSplitComma w).map jsTrim).filter (fun t => decide (0 < t.length))

/-- The `POST /api/watermark` handler body (`server.js` lines 65–185),
after the multer stage accepted the upload.  `comp` is the compositor
closed over the uploaded buffer, `sessionId` the generated session name
and `now` the timestamp used for the ZIP filename.  Returns the
response together with the trace of filesystem/remote effects. -/
def watermarkHandler (comp : Options → String → Except String Unit)
    (sessionId : String) (now : Nat) (req : RawRequest) :
    Response × List Effect :=
  let sessionOutputDir := "output/" ++ sessionId
  match req.file with
  | none => (Response.badRequest "No PDF file uploaded", [])
  | some _ =>
    match req.watermarks with
    | none => (Response.badRequest "Watermarks text is required", [])
    | some w =>
      let watermarkTexts := parsePhrases w
      if watermarkTexts.length = 0 then
        (Response.badRequest "At least one watermark text is required", [])
      else
        let options := buildOptions req
        let r := processMultipleWatermarks (comp options) watermarkTexts sessionOutputDir
        match r.2 with
        | Except.error e =>
          (Response.serverError "Failed to process watermark request" (some e),
            r.1 ++ [Effect.removeSessionDir 0])
        | Except.ok outputPaths =>
          if outputPaths.length = 0 then
            (Response.serverError "No files were generated" none, r.1)
          else if outputPaths.length = 1 then
            let filePath := outputPaths.headD ""
            (Response.pdfFile "application/pdf" (basename filePath) filePath,
              r.1 ++ [Effect.removeSessionDir 5000])
          else
            let zipFileName := "watermarked_pdfs_" ++ toString now ++ ".zip"
            (Response.zipArchive "application/zip" zipFileName
              (outputPaths.map basename),
              r.1 ++ [Effect.removeSessionDir 5000, Effect.removeZipFile 5000])

/-- The full endpoint including the multer `fileFilter` stage
(`server.js` lines 21–27): a file whose MIME type is not
`application/pdf` is rejected by the filter before the handler body
runs, so no processing effect occurs.  Modelled from the spec: the
translation of that rejection into an HTTP response happens in
multer/Express middleware outside this repository's sources; the spec
classifies it as a validation error reported immediately as a 4xx JSON
`{error}` body. -/
def watermarkEndpoint (comp : Options → String → Except String Unit)
    (sessionId : String) (now : Nat) (req : RawRequest) :
    Response × List Effect :=
  match req.file with
  | some f =>
    if f.mimetype = "application/pdf" then watermarkHandler comp sessionId now req
    else (Response.badRequest "Only PDF files are allowed", [])
  | none => watermarkHandler comp sessionId now req

/-- A compositor that always succeeds (every Adobe call completes). -/
def alwaysOkComp : Options → String → Except String Unit :=
  fun _ _ => Except.ok ()

/-- A per-phrase compositor that always succeeds. -/
def alwaysOkApply : String → Except String Unit :=
  fun _ => Except.ok ()

example :
    (processMultipleWatermarks alwaysOkApply ["For Alice", "  ", "x!y"] "output/s1").2 =
      Except.ok ["output/s1/For_Alice.pdf", "output/s1/xy.pdf"] := by
  with_unfolding_all rfl

example :
    (watermarkEndpoint alwaysOkComp "s1" 7
      { file := some ⟨"application/pdf"⟩, watermarks := some "For Alice, For Bob",
        fontSize := none, angle := none, opacity := none, posX := none, posY := none }).1 =
      Response.zipArchive "application/zip" "watermarked_pdfs_7.zip"
        ["For_Alice.pdf", "For_Bob.pdf"] := by
  with_unfolding_all rfl

section Lemmas

variable {α : Type}

/-- The head surviving `dropWhile p` fails `p`. -/
theorem head_dropWhile_false (p : α → Bool) :
    ∀ (l : List α) (c : α), (l.dropWhile p).head? = some c → p c = false := by
  intro l
  induction l with
  | nil => intro c h; simp [List.dropWhile] at h
  | cons a as ih =>
    intro c h
    by_cases hp : p a
    · rw [List.dropWhile_cons_of_pos hp] at h
      exact ih c h
    · rw [List.dropWhile_cons_of_neg hp] at h
      simp at h
      subst h
      simpa using hp

/-- `dropWhile` keeps a list whose head fails the predicate. -/
theorem dropWhile_eq_self_of_head (p : α → Bool) (l : List α)
    (h : ∀ c, l.head? = some c → p c = false) : l.dropWhile p = l := by
  cases l with
  | nil => rfl
  | cons a as => exact List.dropWhile_cons_of_neg (by simp [h a rfl])

/-- `dropWhile` removes only a prefix, so when something is left the
last element is unchanged. -/
theorem getLast?_dropWhile (p : α → Bool) :
    ∀ l : List α, l.dropWhile p ≠ [] → (l.dropWhile p).getLast? = l.getLast? := by
  intro l
  induction l with
  | nil => intro h; simp [List.dropWhile] at h
  | cons a as ih =>
    intro h
    by_cases hp : p a
    · rw [List.dropWhile_cons_of_pos hp] at h ⊢
      have has : as ≠ [] := by
        intro he
        apply h
        simp [he, List.dropWhile]
      obtain ⟨b, bs, rfl⟩ := List.exists_cons_of_ne_nil has
      rw [ih h, List.getLast?_cons_cons]
    · rw [List.dropWhile_cons_of_neg hp]

/-- The first character of a trimmed list is not whitespace. -/
theorem trimList_head_not_ws (l : List Char) (c : Char)
    (h : (trimList l).head? = some c) : jsWhitespace c = false := by
  unfold trimList at h
  rw [List.head?_reverse] at h
  by_cases hnil : (l.dropWhile jsWhitespace).reverse.dropWhile jsWhitespace = []
  · rw [hnil] at h
    simp at h
  · rw [getLast?_dropWhile _ _ hnil, List.getLast?_reverse] at h
    exact head_dropWhile_false _ _ _ h

/-- The last character of a trimmed list is not whitespace. -/
theorem trimList_getLast_not_ws (l : List Char) (c : Char)
    (h : (trimList l).getLast? = some c) : jsWhitespace c = false := by
  unfold trimList at h
  rw [List.getLast?_reverse] at h
  exact head_dropWhile_false _ _ _ h

/-- Trimming is idempotent on character lists. -/
theorem trimList_trimList (l : List Char) : trimList (trimList l) = trimList l := by
  have h1 : (trimList l).dropWhile jsWhitespace = trimList l :=
    dropWhile_eq_self_of_head _ _ (trimList_head_not_ws l)
  have h2 : (trimList l).reverse.dropWhile jsWhitespace = (trimList l).reverse := by
    apply dropWhile_eq_self_of_head
    intro c hc
    rw [List.head?_reverse] at hc
    exact trimList_getLast_not_ws l c hc
  show (((trimList l).dropWhile jsWhitespace).reverse.dropWhile jsWhitespace).reverse = trimList l
  rw [h1, h2, List.reverse_reverse]

/-- `trim()` is idempotent on strings. -/
theorem jsTrim_jsTrim (s : String) : jsTrim (jsTrim s) = jsTrim s := by
  show (⟨trimList (trimList s.toList)⟩ : String) = ⟨trimList s.toList⟩
  rw [trimList_trimList]

/-- An alphanumeric character is not JS whitespace. -/
theorem isAlnum_not_ws (c : Char) (h : isAlnum c = true) : jsWhitespace c = false := by
  unfold isAlnum isAlnumCode at h
  unfold jsWhitespace isJsSpaceCode
  simp only [Bool.or_eq_true, decide_eq_true_eq, Bool.and_eq_true] at h
  simp only [Bool.or_eq_false_iff, Bool.and_eq_false_iff, decide_eq_false_iff_not,
    Decidable.not_not]
  omega

/-- Collapsing whitespace is the identity on whitespace-free lists. -/
theorem collapseWsAux_of_no_ws (b : Bool) :
    ∀ l : List Char, (∀ c ∈ l, jsWhitespace c = false) → collapseWsAux b l = l := by
  intro l
  induction l generalizing b with
  | nil => intro _; rfl
  | cons a as ih =>
    intro h
    have ha : jsWhitespace a = false := h a (List.mem_cons_self a as)
    unfold collapseWsAux
    rw [ha]
    simp only [Bool.false_eq_true, if_false]
    rw [ih false (fun c hc => h c (List.mem_cons_of_mem a hc))]

/-- On a whitespace-free list the sanitizer just filters to the
alphanumeric characters. -/
theorem sanitizeList_of_no_ws (l : List Char)
    (h : ∀ c ∈ l, jsWhitespace c = false) :
    sanitizeList l = l.filter isAlnum := by
  unfold sanitizeList collapseWs stripDisallowed
  have hf : l.filter (fun c => isAlnum c || jsWhitespace c) = l.filter isAlnum := by
    apply List.filter_congr
    intro a ha
    rw [h a ha, Bool.or_false]
  rw [hf]
  apply collapseWsAux_of_no_ws
  intro c hc
  exact h c (List.mem_of_mem_filter hc)

end Lemmas

/-- Characterization of a successful `pmwLoop` run: the output paths
are exactly the sanitized paths of the phrases that are non-empty after
trimming, in input order. -/
theorem pmwLoop_ok_paths (comp : String → Except String Unit) (dir : String) :
    ∀ (texts : List String) (effs : List Effect) (paths : List String),
      pmwLoop comp dir texts = (effs, Except.ok paths) →
      paths = ((texts.map jsTrim).filter (fun t => decide (¬ t = ""))).map
        (fun t => dir ++ "/" ++ sanitize t ++ ".pdf") := by
  intro texts
  induction texts with
  | nil =>
    intro effs paths h
    simp only [pmwLoop, Prod.mk.injEq, Except.ok.injEq] at h
    simp [← h.2]
  | cons t ts ih =>
    intro effs paths h
    by_cases hw : jsTrim t = ""
    · have hstep : pmwLoop comp dir (t :: ts) = pmwLoop comp dir ts := by
        simp [pmwLoop, hw]
      rw [hstep] at h
      rw [ih effs paths h]
      simp [hw]
    · cases hc : comp (jsTrim t) with
      | error e =>
        have hstep : pmwLoop comp dir (t :: ts) =
            ([Effect.applyWatermarkCall (jsTrim t) (dir ++ "/" ++ sanitize (jsTrim t) ++ ".pdf")],
              Except.error e) := by
          simp [pmwLoop, hw, hc]
        rw [hstep] at h
        simp [Prod.ext_iff] at h
      | ok u =>
        cases u
        rcases hrec : pmwLoop comp dir ts with ⟨effs2, r2⟩
        cases r2 with
        | error e =>
          have hstep : pmwLoop comp dir (t :: ts) =
              (Effect.applyWatermarkCall (jsTrim t) (dir ++ "/" ++ sanitize (jsTrim t) ++ ".pdf")
                :: effs2, Except.error e) := by
            simp [pmwLoop, hw, hc, hrec]
          rw [hstep] at h
          simp [Prod.ext_iff] at h
        | ok ps =>
          have hstep : pmwLoop comp dir (t :: ts) =
              (Effect.applyWatermarkCall (jsTrim t) (dir ++ "/" ++ sanitize (jsTrim t) ++ ".pdf")
                :: effs2,
               Except.ok ((dir ++ "/" ++ sanitize (jsTrim t) ++ ".pdf") :: ps)) := by
            simp [pmwLoop, hw, hc, hrec]
          rw [hstep] at h
          obtain ⟨-, h2⟩ := Prod.mk.injEq .. |>.mp h
          obtain h2 := Except.ok.inj h2
          rw [← h2, ih effs2 ps (by rw [hrec])]
          simp [hw]

/-- The effect trace of `pmwLoop` consists only of compositor calls:
it never removes the session directory. -/
theorem pmwLoop_no_remove (comp : String → Except String Unit) (dir : String) :
    ∀ (texts : List String) (d : Nat),
      Effect.removeSessionDir d ∉ (pmwLoop comp dir texts).1 := by
  intro texts
  induction texts with
  | nil => intro d; simp [pmwLoop]
  | cons t ts ih =>
    intro d
    by_cases hw : jsTrim t = ""
    · simpa [pmwLoop, hw] using ih d
    · cases hc : comp (jsTrim t) with
      | error e => simp [pmwLoop, hw, hc]
      | ok u =>
        cases u
        rcases hrec : pmwLoop comp dir ts with ⟨effs2, r2⟩
        have h2 : Effect.removeSessionDir d ∉ effs2 := by
          have := ih d
          rw [hrec] at this
          exact this
        cases r2 with
        | error e => simp [pmwLoop, hw, hc, hrec]; exact h2
        | ok ps => simp [pmwLoop, hw, hc, hrec]; exact h2

/-- Claim C1: for every valid request (a parseable source PDF and a
phrase list, i.e. a run in which processing succeeds),
`processMultipleWatermarks` returns exactly one output file path per
phrase that is non-empty after trimming, in the same order as the
phrases appear in the input list; phrases that are empty after trimming
are skipped and contribute no path. -/
theorem c1_paths_per_nonempty_phrase (comp : String → Except String Unit)
    (texts : List String) (dir : String) (effs : List Effect) (paths : List String)
    (h : processMultipleWatermarks comp texts dir = (effs, Except.ok paths)) :
    paths = ((texts.map jsTrim).filter (fun t => decide (¬ t = ""))).map
      (fun t => dir ++ "/" ++ sanitize t ++ ".pdf") := by
  have h2 : (pmwLoop comp dir texts).2 = Except.ok paths := by
    have := congrArg Prod.snd h
    simpa [processMultipleWatermarks] using this
  exact pmwLoop_ok_paths comp dir texts (pmwLoop comp dir texts).1 paths
    (by rw [← h2])

/-- Witness for C1 at a concrete input: of the phrases
`["For Alice", "  ", "x!y"]` the blank one is skipped and the other two
produce their sanitized paths in order. -/
theorem c1_paths_per_nonempty_phrase_witness :
    ["output/s1/For_Alice.pdf", "output/s1/xy.pdf"] =
      (((["For Alice", "  ", "x!y"].map jsTrim).filter (fun t => decide (¬ t = ""))).map
        (fun t => "output/s1" ++ "/" ++ sanitize t ++ ".pdf")) :=
  c1_paths_per_nonempty_phrase alwaysOkApply ["For Alice", "  ", "x!y"] "output/s1"
    [Effect.mkdirSession,
     Effect.applyWatermarkCall "For Alice" "output/s1/For_Alice.pdf",
     Effect.applyWatermarkCall "x!y" "output/s1/xy.pdf"]
    ["output/s1/For_Alice.pdf", "output/s1/xy.pdf"]
    (by with_unfolding_all rfl)

/-- Counterexample to claim C2 as stated: sanitization is not
idempotent.  `sanitize "a b" = "a_b"`, but a second application strips
the underscore: `sanitize "a_b" = "ab"`. -/
theorem c2_sanitize_not_idempotent :
    ¬ sanitize (sanitize "a b") = sanitize "a b" := by decide

/-- Claim C2 (amended): sanitization is idempotent on phrases that
contain no whitespace; in general a second application strips the
underscores the first one introduced for whitespace runs. -/
theorem c2_sanitize_idempotent_on_ws_free (s : String)
    (h : ∀ c ∈ s.toList, jsWhitespace c = false) :
    sanitize (sanitize s) = sanitize s := by
  show (⟨sanitizeList (sanitizeList s.toList)⟩ : String) = ⟨sanitizeList s.toList⟩
  rw [sanitizeList_of_no_ws s.toList h]
  have h2 : ∀ c ∈ s.toList.filter isAlnum, jsWhitespace c = false := by
    intro c hc
    exact isAlnum_not_ws c (List.of_mem_filter hc)
  rw [sanitizeList_of_no_ws _ h2]
  rw [List.filter_eq_self.mpr (fun a ha => List.of_mem_filter ha)]

/-- Witness for the amended C2 at a concrete whitespace-free phrase. -/
theorem c2_sanitize_idempotent_on_ws_free_witness :
    sanitize (sanitize "ForAlice") = sanitize "ForAlice" :=
  c2_sanitize_idempotent_on_ws_free "ForAlice" (by decide)

/-- Claim C3: for every source document and appearance options, the
overlay generator produces a single-page PDF whose page width and
height equal those of the source's reference page at index
`min 2 (lastPageIndex)`, with the phrase uppercased and drawn at
`(posX/100 * width, posY/100 * height)`, rotated by the angle option,
at the opacity option, in the fixed Times Roman serif font at the
fontSize option. -/
theorem c3_overlay_matches_reference_page (sourcePages : List PageSize)
    (text : String) (opts : CreateOptions) (ref : PageSize)
    (href : sourcePages[min 2 (sourcePages.length - 1)]? = some ref) :
    createWatermarkPdf sourcePages text opts =
      some [{ width := ref.width, height := ref.height,
              drawn := [{ text := jsToUpper text,
                          x := opts.posX.getD 50 / 100 * ref.width,
                          y := opts.posY.getD 50 / 100 * ref.height,
                          size := opts.fontSize.getD 30, font := "TimesRoman",
                          colorR := 1/2, colorG := 1/2, colorB := 1/2,
                          opacity := opts.opacity.getD (1/2),
                          rotate := opts.angle.getD 55 }] }] := by
  simp [createWatermarkPdf, href]

/-- Witness for C3: a one-page US-letter source with explicit position
options places "GUEST COPY" at `(25% · 612, 75% · 792) = (153, 594)`
with the default size, opacity and angle. -/
theorem c3_overlay_matches_reference_page_witness :
    createWatermarkPdf [⟨612, 792⟩] "Guest Copy" ⟨none, none, none, some 25, some 75⟩ =
      some [{ width := 612, height := 792,
              drawn := [{ text := "GUEST COPY", x := 153, y := 594, size := 30,
                          font := "TimesRoman", colorR := 1/2, colorG := 1/2,
                          colorB := 1/2, opacity := 1/2, rotate := 55 }] }] := by
  rw [c3_overlay_matches_reference_page [⟨612, 792⟩] "Guest Copy"
    ⟨none, none, none, some 25, some 75⟩ ⟨612, 792⟩ (by with_unfolding_all rfl)]
  with_unfolding_all rfl

/-- Claim C5: given the phrase list "For Alice, For Bob", the output is
a ZIP archive containing exactly the two entries `For_Alice.pdf` and
`For_Bob.pdf`, in that order. -/
theorem c5_two_phrases_zip_entries :
    watermarkEndpoint alwaysOkComp "s1" 7
      { file := some ⟨"application/pdf"⟩, watermarks := some "For Alice, For Bob",
        fontSize := none, angle := none, opacity := none, posX := none, posY := none } =
      (Response.zipArchive "application/zip" "watermarked_pdfs_7.zip"
        ["For_Alice.pdf", "For_Bob.pdf"],
       [Effect.mkdirSession,
        Effect.applyWatermarkCall "For Alice" "output/s1/For_Alice.pdf",
        Effect.applyWatermarkCall "For Bob" "output/s1/For_Bob.pdf",
        Effect.removeSessionDir 5000, Effect.removeZipFile 5000]) := by
  with_unfolding_all rfl

/-- Claim C10: there exist distinct non-empty phrases with identical
sanitized filenames — here "For Alice" and "For Alice!" — for which
`processMultipleWatermarks` writes both results to the same output path
(the trace shows the second `applyWatermark` targeting the path the
first one already wrote) and returns that path twice. -/
theorem c10_sanitized_collision_overwrites :
    ("For Alice" : String) ≠ "For Alice!" ∧
    jsTrim "For Alice" ≠ "" ∧ jsTrim "For Alice!" ≠ "" ∧
    sanitize "For Alice" = sanitize "For Alice!" ∧
    processMultipleWatermarks alwaysOkApply ["For Alice", "For Alice!"] "output/s1" =
      ([Effect.mkdirSession,
        Effect.applyWatermarkCall "For Alice" "output/s1/For_Alice.pdf",
        Effect.applyWatermarkCall "For Alice!" "output/s1/For_Alice.pdf"],
       Except.ok ["output/s1/For_Alice.pdf", "output/s1/For_Alice.pdf"]) := by
  refine ⟨by decide, by decide, by decide, by decide, ?_⟩
  with_unfolding_all rfl

/-- A request with no appearance fields at all. -/
def reqAllAbsent : RawRequest :=
  { file := none, watermarks := none, fontSize := none, angle := none,
    opacity := none, posX := none, posY := none }

/-- A request sending the string "0" for every appearance field. -/
def reqAllZero : RawRequest :=
  { file := none, watermarks := none, fontSize := some "0", angle := some "0",
    opacity := some "0", posX := some "0", posY := some "0" }

/-- Claim C6: for every request in which an appearance option is absent
or invalid (its field does not parse to a number), the corresponding
default from `{fontSize: 30, angle: 55, opacity: 0.5, posX: 50,
posY: 50}` is applied; when all appearance options are omitted
entirely, exactly those five defaults are used. -/
theorem c6_defaults_on_absent_or_invalid (req : RawRequest) :
    ((req.fontSize = none ∨ jsParseIntField req.fontSize = JsNum.nan) →
      (buildOptions req).fontSize = 30) ∧
    ((req.angle = none ∨ jsParseIntField req.angle = JsNum.nan) →
      (buildOptions req).angle = 55) ∧
    ((req.opacity = none ∨ jsParseFloatField req.opacity = JsNum.nan) →
      (buildOptions req).opacity = 1/2) ∧
    ((req.posX = none ∨ jsParseFloatField req.posX = JsNum.nan) →
      (buildOptions req).posX = 50) ∧
    ((req.posY = none ∨ jsParseFloatField req.posY = JsNum.nan) →
      (buildOptions req).posY = 50) ∧
    ((req.fontSize = none ∧ req.angle = none ∧ req.opacity = none ∧
      req.posX = none ∧ req.posY = none) →
      buildOptions req =
        { fontSize := 30, angle := 55, opacity := 1/2, posX := 50, posY := 50 }) := by
  refine ⟨?_, ?_, ?_, ?_, ?_, ?_⟩
  · rintro (h | h)
    · simp [buildOptions, jsParseIntField, jsOr, h]
    · show jsOr (jsParseIntField req.fontSize) 30 = 30
      rw [h]
      simp [jsOr]
  · rintro (h | h)
    · simp [buildOptions, jsParseIntField, jsOr, h]
    · show jsOr (jsParseIntField req.angle) 55 = 55
      rw [h]
      simp [jsOr]
  · rintro (h | h)
    · simp [buildOptions, jsParseFloatField, jsOr, h]
    · show jsOr (jsParseFloatField req.opacity) (1/2) = 1/2
      rw [h]
      simp [jsOr]
  · rintro (h | h)
    · simp [buildOptions, jsParseFloatField, jsOr, h]
    · show jsOr (jsParseFloatField req.posX) 50 = 50
      rw [h]
      simp [jsOr]
  · rintro (h | h)
    · simp [buildOptions, jsParseFloatField, jsOr, h]
    · show jsOr (jsParseFloatField req.posY) 50 = 50
      rw [h]
      simp [jsOr]
  · rintro ⟨h1, h2, h3, h4, h5⟩
    simp [buildOptions, h1, h2, h3, h4, h5, jsParseIntField, jsParseFloatField, jsOr]

/-- Witness for C6: a request with no appearance fields at all receives
exactly the five defaults. -/
theorem c6_defaults_on_absent_or_invalid_witness :
    buildOptions reqAllAbsent =
      { fontSize := 30, angle := 55, opacity := 1/2, posX := 50, posY := 50 } :=
  (c6_defaults_on_absent_or_invalid reqAllAbsent).2.2.2.2.2 ⟨rfl, rfl, rfl, rfl, rfl⟩

/-- Claim C9: when a numeric appearance field parses to `0` (a value
inside the documented valid range for angle, opacity, posX and posY),
the `||` fallback discards it and the default for that field is applied
instead. -/
theorem c9_zero_discarded_for_default (req : RawRequest) :
    (jsParseIntField req.fontSize = JsNum.num 0 → (buildOptions req).fontSize = 30) ∧
    (jsParseIntField req.angle = JsNum.num 0 → (buildOptions req).angle = 55) ∧
    (jsParseFloatField req.opacity = JsNum.num 0 → (buildOptions req).opacity = 1/2) ∧
    (jsParseFloatField req.posX = JsNum.num 0 → (buildOptions req).posX = 50) ∧
    (jsParseFloatField req.posY = JsNum.num 0 → (buildOptions req).posY = 50) := by
  refine ⟨?_, ?_, ?_, ?_, ?_⟩
  · intro h
    show jsOr (jsParseIntField req.fontSize) 30 = 30
    rw [h]
    simp [jsOr]
  · intro h
    show jsOr (jsParseIntField req.angle) 55 = 55
    rw [h]
    simp [jsOr]
  · intro h
    show jsOr (jsParseFloatField req.opacity) (1/2) = 1/2
    rw [h]
    simp [jsOr]
  · intro h
    show jsOr (jsParseFloatField req.posX) 50 = 50
    rw [h]
    simp [jsOr]
  · intro h
    show jsOr (jsParseFloatField req.posY) 50 = 50
    rw [h]
    simp [jsOr]

/-- Witness for C9: a request sending the string "0" for every
appearance field still gets all five defaults, even though 0 is a valid
angle, opacity and position. -/
theorem c9_zero_discarded_for_default_witness :
    (buildOptions reqAllZero).fontSize = 30 ∧
    (buildOptions reqAllZero).angle = 55 ∧
    (buildOptions reqAllZero).opacity = 1/2 ∧
    (buildOptions reqAllZero).posX = 50 ∧
    (buildOptions reqAllZero).posY = 50 :=
  ⟨(c9_zero_discarded_for_default reqAllZero).1 (by with_unfolding_all rfl),
   (c9_zero_discarded_for_default reqAllZero).2.1 (by with_unfolding_all rfl),
   (c9_zero_discarded_for_default reqAllZero).2.2.1 (by with_unfolding_all rfl),
   (c9_zero_discarded_for_default reqAllZero).2.2.2.1 (by with_unfolding_all rfl),
   (c9_zero_discarded_for_default reqAllZero).2.2.2.2 (by with_unfolding_all rfl)⟩

/-- A request whose upload is not a PDF. -/
def reqNonPdf : RawRequest :=
  { file := some ⟨"text/plain"⟩, watermarks := some "For Alice", fontSize := none,
    angle := none, opacity := none, posX := none, posY := none }

/-- A valid PDF request with the single phrase "For Alice". -/
def reqOnePhrase : RawRequest :=
  { file := some ⟨"application/pdf"⟩, watermarks := some "For Alice", fontSize := none,
    angle := none, opacity := none, posX := none, posY := none }

/-- A compositor whose every Adobe call fails with "boom". -/
def alwaysFailComp : Options → String → Except String Unit :=
  fun _ _ => Except.error "boom"

/-- Claim C7: a request with a missing file, a non-PDF MIME type, or a
phrase list that is empty after splitting and trimming is answered with
an HTTP 400 JSON `{error}` body, before any overlay is built or remote
call occurs and with no other side effects (the effect trace is empty). -/
theorem c7_validation_rejects_without_side_effects
    (comp : Options → String → Except String Unit) (sessionId : String) (now : Nat)
    (req : RawRequest)
    (h : req.file = none ∨
         (∃ f, req.file = some f ∧ ¬ f.mimetype = "application/pdf") ∨
         (∃ w, req.watermarks = some w ∧ parsePhrases w = [])) :
    (watermarkEndpoint comp sessionId now req).1.isBadRequest = true ∧
    (watermarkEndpoint comp sessionId now req).1.status = 400 ∧
    (watermarkEndpoint comp sessionId now req).2 = [] := by
  rcases h with h | ⟨f, hf, hm⟩ | ⟨w, hw, hp⟩
  · simp [watermarkEndpoint, watermarkHandler, h, Response.isBadRequest, Response.status]
  · simp [watermarkEndpoint, hf, hm, Response.isBadRequest, Response.status]
  · cases hfile : req.file with
    | none =>
      simp [watermarkEndpoint, watermarkHandler, hfile, Response.isBadRequest,
        Response.status]
    | some f =>
      by_cases hm : f.mimetype = "application/pdf"
      · simp [watermarkEndpoint, watermarkHandler, hfile, hm, hw, hp,
          Response.isBadRequest, Response.status]
      · simp [watermarkEndpoint, hfile, hm, Response.isBadRequest, Response.status]

/-- Witness for C7: a `text/plain` upload is rejected with a 400 JSON
error and an empty effect trace. -/
theorem c7_validation_rejects_without_side_effects_witness :
    (watermarkEndpoint alwaysOkComp "s1" 0 reqNonPdf).1.isBadRequest = true ∧
    (watermarkEndpoint alwaysOkComp "s1" 0 reqNonPdf).1.status = 400 ∧
    (watermarkEndpoint alwaysOkComp "s1" 0 reqNonPdf).2 = [] :=
  c7_validation_rejects_without_side_effects alwaysOkComp "s1" 0 reqNonPdf
    (Or.inr (Or.inl ⟨⟨"text/plain"⟩, rfl, by decide⟩))


/-- A nonempty string has positive length. -/
theorem string_length_pos_iff (s : String) : 0 < s.length ↔ ¬ s = "" := by
  cases s with
  | mk data =>
    simp [String.length, String.ext_iff]
    exact List.length_pos

/-- Every parsed phrase is already trimmed and non-empty. -/
theorem mem_parsePhrases (w t : String) (h : t ∈ parsePhrases w) :
    jsTrim t = t ∧ ¬ t = "" := by
  unfold parsePhrases at h
  have hmem := List.mem_of_mem_filter h
  have hpos := List.of_mem_filter h
  rw [decide_eq_true_eq] at hpos
  obtain ⟨s, -, rfl⟩ := List.mem_map.mp hmem
  exact ⟨jsTrim_jsTrim s, (string_length_pos_iff _).mp hpos⟩

/-- On a list of already-trimmed, non-empty phrases, the trim-and-skip
pass of the orchestrator keeps every element. -/
theorem trimmed_filter_map_id (texts : List String)
    (ht : ∀ t ∈ texts, jsTrim t = t ∧ ¬ t = "") :
    (texts.map jsTrim).filter (fun t => decide (¬ t = "")) = texts := by
  have hmap : texts.map jsTrim = texts := by
    have := List.map_congr_left (f := jsTrim) (g := id)
      (fun a ha => (ht a ha).1)
    rw [this, List.map_id]
  rw [hmap]
  apply List.filter_eq_self.mpr
  intro a ha
  rw [decide_eq_true_eq]
  exact (ht a ha).2

/-- A successful orchestrator run over the parsed phrase list yields
one path per phrase. -/
theorem pmw_ok_length (comp : String → Except String Unit) (dir w : String)
    (effs : List Effect) (paths : List String)
    (hp : processMultipleWatermarks comp (parsePhrases w) dir =
      (effs, Except.ok paths)) :
    paths.length = (parsePhrases w).length := by
  have h2 : (pmwLoop comp dir (parsePhrases w)).2 = Except.ok paths := by
    have := congrArg Prod.snd hp
    simpa [processMultipleWatermarks] using this
  have hchar := pmwLoop_ok_paths comp dir (parsePhrases w)
    (pmwLoop comp dir (parsePhrases w)).1 paths (by rw [← h2])
  rw [hchar, trimmed_filter_map_id (parsePhrases w) (mem_parsePhrases w),
    List.length_map]

/-- Claim C4: when the orchestrator produced exactly one output path,
the response streams that file with an `application/pdf` content type
and a `Content-Disposition` filename equal to the file's basename; when
it produced two or more, the response is a ZIP archive whose entries
are the files' basenames in order, and whose entry count equals the
number of parsed phrases. -/
theorem c4_single_pdf_or_zip
    (comp : Options → String → Except String Unit) (sessionId : String) (now : Nat)
    (req : RawRequest) (f : Upload) (w : String) (effs : List Effect)
    (paths : List String)
    (hf : req.file = some f) (hm : f.mimetype = "application/pdf")
    (hw : req.watermarks = some w)
    (hp : processMultipleWatermarks (comp (buildOptions req)) (parsePhrases w)
            ("output/" ++ sessionId) = (effs, Except.ok paths)) :
    (paths.length = 1 →
      watermarkEndpoint comp sessionId now req =
        (Response.pdfFile "application/pdf" (basename (paths.headD ""))
          (paths.headD ""),
         effs ++ [Effect.removeSessionDir 5000])) ∧
    (2 ≤ paths.length →
      watermarkEndpoint comp sessionId now req =
        (Response.zipArchive "application/zip"
          ("watermarked_pdfs_" ++ toString now ++ ".zip") (paths.map basename),
         effs ++ [Effect.removeSessionDir 5000, Effect.removeZipFile 5000]) ∧
      (paths.map basename).length = (parsePhrases w).length) := by
  have hlen : paths.length = (parsePhrases w).length :=
    pmw_ok_length (comp (buildOptions req)) ("output/" ++ sessionId) w effs paths hp
  have h1 : (processMultipleWatermarks (comp (buildOptions req)) (parsePhrases w)
      ("output/" ++ sessionId)).2 = Except.ok paths := by rw [hp]
  have h2 : (processMultipleWatermarks (comp (buildOptions req)) (parsePhrases w)
      ("output/" ++ sessionId)).1 = effs := by rw [hp]
  constructor
  · intro hone
    have htexts : ¬ (parsePhrases w).length = 0 := by omega
    have e0 : (paths.length = 0) = False := eq_false (by omega)
    have e1 : (paths.length = 1) = True := eq_true hone
    simp only [watermarkEndpoint, watermarkHandler, hf, hm, if_true, hw, htexts,
      if_false, h1, h2, e0, e1, if_true]
  · intro htwo
    have htexts : ¬ (parsePhrases w).length = 0 := by omega
    have e0 : (paths.length = 0) = False := eq_false (by omega)
    have e1 : (paths.length = 1) = False := eq_false (by omega)
    refine ⟨?_, by rw [List.length_map]; exact hlen⟩
    simp only [watermarkEndpoint, watermarkHandler, hf, hm, if_true, hw, htexts,
      if_false, h1, h2, e0, e1]

/-- A valid PDF request carrying the two phrases "For Alice, For Bob". -/
def reqTwoPhrases : RawRequest :=
  { file := some ⟨"application/pdf"⟩, watermarks := some "For Alice, For Bob",
    fontSize := none, angle := none, opacity := none, posX := none, posY := none }

/-- Witness for C4 (zip branch): the two-phrase request produces a ZIP
whose entries are the two basenames and whose entry count matches the
parsed phrase count. -/
theorem c4_single_pdf_or_zip_witness :
    (watermarkEndpoint alwaysOkComp "s1" 7 reqTwoPhrases =
      (Response.zipArchive "application/zip"
        ("watermarked_pdfs_" ++ toString 7 ++ ".zip")
        (["output/s1/For_Alice.pdf", "output/s1/For_Bob.pdf"].map basename),
       [Effect.mkdirSession,
        Effect.applyWatermarkCall "For Alice" "output/s1/For_Alice.pdf",
        Effect.applyWatermarkCall "For Bob" "output/s1/For_Bob.pdf"] ++
         [Effect.removeSessionDir 5000, Effect.removeZipFile 5000])) ∧
    (["output/s1/For_Alice.pdf", "output/s1/For_Bob.pdf"].map basename).length =
      (parsePhrases "For Alice, For Bob").length :=
  (c4_single_pdf_or_zip alwaysOkComp "s1" 7 reqTwoPhrases ⟨"application/pdf"⟩
    "For Alice, For Bob"
    [Effect.mkdirSession,
     Effect.applyWatermarkCall "For Alice" "output/s1/For_Alice.pdf",
     Effect.applyWatermarkCall "For Bob" "output/s1/For_Bob.pdf"]
    ["output/s1/For_Alice.pdf", "output/s1/For_Bob.pdf"]
    rfl rfl rfl (by with_unfolding_all rfl)).2 (by decide)

/-- Extension of `watermarkHandler` with the archive-writer outcome
`arc` made explicit (`none`: every entry is appended and `finalize`
resolves, so the `close` handler streams the ZIP; `some e`: the
archiver emits an `error` event with message `e`).  Per `server.js`
lines 158-161 the error listener immediately answers 500
`{error: 'Failed to create ZIP archive'}` with no details field; the
rejected `await archive.finalize()` then reaches the catch block,
which removes the session directory at once, while the catch's own
details response can no longer be sent (headers were already sent).
All other branches are exactly those of `watermarkHandler`. -/
def watermarkHandlerFull (comp : Options → String → Except String Unit)
    (arc : Option String) (sessionId : String) (now : Nat) (req : RawRequest) :
    Response × List Effect :=
  let sessionOutputDir := "output/" ++ sessionId
  match req.file with
  | none => (Response.badRequest "No PDF file uploaded", [])
  | some _ =>
    match req.watermarks with
    | none => (Response.badRequest "Watermarks text is required", [])
    | some w =>
      let watermarkTexts := parsePhrases w
      if watermarkTexts.length = 0 then
        (Response.badRequest "At least one watermark text is required", [])
      else
        let options := buildOptions req
        let r := processMultipleWatermarks (comp options) watermarkTexts sessionOutputDir
        match r.2 with
        | Except.error e =>
          (Response.serverError "Failed to process watermark request" (some e),
            r.1 ++ [Effect.removeSessionDir 0])
        | Except.ok outputPaths =>
          if outputPaths.length = 0 then
            (Response.serverError "No files were generated" none, r.1)
          else if outputPaths.length = 1 then
            let filePath := outputPaths.headD ""
            (Response.pdfFile "application/pdf" (basename filePath) filePath,
              r.1 ++ [Effect.removeSessionDir 5000])
          else
            match arc with
            | none =>
              let zipFileName := "watermarked_pdfs_" ++ toString now ++ ".zip"
              (Response.zipArchive "application/zip" zipFileName
                (outputPaths.map basename),
                r.1 ++ [Effect.removeSessionDir 5000, Effect.removeZipFile 5000])
            | some _ =>
              (Response.serverError "Failed to create ZIP archive" none,
                r.1 ++ [Effect.removeSessionDir 0])

/-- The endpoint with the archive-writer outcome made explicit. -/
def watermarkEndpointFull (comp : Options → String → Except String Unit)
    (arc : Option String) (sessionId : String) (now : Nat) (req : RawRequest) :
    Response × List Effect :=
  match req.file with
  | some f =>
    if f.mimetype = "application/pdf" then
      watermarkHandlerFull comp arc sessionId now req
    else (Response.badRequest "Only PDF files are allowed", [])
  | none => watermarkHandlerFull comp arc sessionId now req

/-- Coherence: when the archive writer succeeds, the extended endpoint
coincides with `watermarkEndpoint` (whose ZIP branch assumed success). -/
theorem watermarkEndpointFull_none (comp : Options → String → Except String Unit)
    (sessionId : String) (now : Nat) (req : RawRequest) :
    watermarkEndpointFull comp none sessionId now req =
      watermarkEndpoint comp sessionId now req := rfl

/-- The effect trace of `processMultipleWatermarks` itself (directory
creation and compositor calls) never removes the session directory. -/
theorem pmw_effs_no_remove (comp : String → Except String Unit)
    (texts : List String) (dir : String) (effs : List Effect)
    (x : Except String (List String))
    (hp : processMultipleWatermarks comp texts dir = (effs, x)) :
    ∀ d, Effect.removeSessionDir d ∉ effs := by
  intro d hd
  have heffs : effs = Effect.mkdirSession :: (pmwLoop comp dir texts).1 := by
    have := congrArg Prod.fst hp
    simpa [processMultipleWatermarks] using this.symm
  rw [heffs] at hd
  rcases List.mem_cons.mp hd with h1 | h1
  · simp at h1
  · exact pmwLoop_no_remove _ _ _ d h1

/-- Counterexample to claim C8 as stated: a packaging (archive-writer)
failure is a processing failure after validation, yet the response the
client receives is the error listener's `{error: 'Failed to create ZIP
archive'}` body, a 500 with no details message. -/
theorem c8_packaging_failure_lacks_details :
    (watermarkEndpointFull alwaysOkComp (some "disk full") "s1" 7 reqTwoPhrases).1 =
      Response.serverError "Failed to create ZIP archive" none ∧
    (watermarkEndpointFull alwaysOkComp (some "disk full") "s1" 7 reqTwoPhrases).1.status
      = 500 := by
  constructor
  · with_unfolding_all rfl
  · with_unfolding_all rfl

/-- Claim C8 (amended): for every request that fails during processing
after validation, the endpoint responds with HTTP 500 and the session
output directory is removed immediately (delay 0, the only removal in
the trace).  A failure surfaced by the orchestrator (remote-service
error or parse failure) is answered through the catch block with a
JSON body carrying the error message as details; an archive-writer
failure is answered by the archiver's error listener with the JSON
body `{error: 'Failed to create ZIP archive'}` and no details message,
the catch block still removing the directory at once. -/
theorem c8_processing_failures_500_cleanup
    (comp : Options → String → Except String Unit) (arc : Option String)
    (sessionId : String) (now : Nat) (req : RawRequest) (f : Upload) (w : String)
    (hf : req.file = some f) (hm : f.mimetype = "application/pdf")
    (hw : req.watermarks = some w) :
    (∀ (effs : List Effect) (e : String),
      processMultipleWatermarks (comp (buildOptions req)) (parsePhrases w)
          ("output/" ++ sessionId) = (effs, Except.error e) →
      watermarkEndpointFull comp arc sessionId now req =
        (Response.serverError "Failed to process watermark request" (some e),
          effs ++ [Effect.removeSessionDir 0]) ∧
      (watermarkEndpointFull comp arc sessionId now req).1.status = 500 ∧
      (∀ d, Effect.removeSessionDir d ∉ effs)) ∧
    (∀ (effs : List Effect) (paths : List String) (e : String),
      arc = some e → 2 ≤ paths.length →
      processMultipleWatermarks (comp (buildOptions req)) (parsePhrases w)
          ("output/" ++ sessionId) = (effs, Except.ok paths) →
      watermarkEndpointFull comp arc sessionId now req =
        (Response.serverError "Failed to create ZIP archive" none,
          effs ++ [Effect.removeSessionDir 0]) ∧
      (watermarkEndpointFull comp arc sessionId now req).1.status = 500 ∧
      (∀ d, Effect.removeSessionDir d ∉ effs)) := by
  constructor
  · intro effs e hp
    have htexts : ¬ (parsePhrases w).length = 0 := by
      intro h0
      rw [List.length_eq_zero] at h0
      rw [h0] at hp
      simp [processMultipleWatermarks, pmwLoop, Prod.ext_iff] at hp
    have hmain : watermarkEndpointFull comp arc sessionId now req =
        (Response.serverError "Failed to process watermark request" (some e),
          effs ++ [Effect.removeSessionDir 0]) := by
      have h1 : (processMultipleWatermarks (comp (buildOptions req)) (parsePhrases w)
          ("output/" ++ sessionId)).2 = Except.error e := by rw [hp]
      have h2 : (processMultipleWatermarks (comp (buildOptions req)) (parsePhrases w)
          ("output/" ++ sessionId)).1 = effs := by rw [hp]
      simp only [watermarkEndpointFull, watermarkHandlerFull, hf, hm, if_true, hw,
        htexts, if_false, h1, h2]
    refine ⟨hmain, ?_, pmw_effs_no_remove _ _ _ _ _ hp⟩
    rw [hmain]
    rfl
  · intro effs paths e harc htwo hp
    have hlen : paths.length = (parsePhrases w).length :=
      pmw_ok_length (comp (buildOptions req)) ("output/" ++ sessionId) w effs paths hp
    have htexts : ¬ (parsePhrases w).length = 0 := by omega
    have e0 : (paths.length = 0) = False := eq_false (by omega)
    have e1 : (paths.length = 1) = False := eq_false (by omega)
    have hmain : watermarkEndpointFull comp arc sessionId now req =
        (Response.serverError "Failed to create ZIP archive" none,
          effs ++ [Effect.removeSessionDir 0]) := by
      have h1 : (processMultipleWatermarks (comp (buildOptions req)) (parsePhrases w)
          ("output/" ++ sessionId)).2 = Except.ok paths := by rw [hp]
      have h2 : (processMultipleWatermarks (comp (buildOptions req)) (parsePhrases w)
          ("output/" ++ sessionId)).1 = effs := by rw [hp]
      simp only [watermarkEndpointFull, watermarkHandlerFull, hf, hm, if_true, hw,
        htexts, if_false, h1, h2, e0, e1, harc]
    refine ⟨hmain, ?_, pmw_effs_no_remove _ _ _ _ _ hp⟩
    rw [hmain]
    rfl

/-- Witness for the amended C8, exercising both failure categories: a
compositor failure ("boom") on the one-phrase request gives the 500
details response with immediate removal, and an archive-writer failure
("disk full") on the two-phrase request gives the detail-less 500 with
immediate removal. -/
theorem c8_processing_failures_500_cleanup_witness :
    watermarkEndpointFull alwaysFailComp none "s1" 0 reqOnePhrase =
      (Response.serverError "Failed to process watermark request" (some "boom"),
        [Effect.mkdirSession,
         Effect.applyWatermarkCall "For Alice" "output/s1/For_Alice.pdf",
         Effect.removeSessionDir 0]) ∧
    watermarkEndpointFull alwaysOkComp (some "disk full") "s1" 7 reqTwoPhrases =
      (Response.serverError "Failed to create ZIP archive" none,
        [Effect.mkdirSession,
         Effect.applyWatermarkCall "For Alice" "output/s1/For_Alice.pdf",
         Effect.applyWatermarkCall "For Bob" "output/s1/For_Bob.pdf",
         Effect.removeSessionDir 0]) :=
  ⟨((c8_processing_failures_500_cleanup alwaysFailComp none "s1" 0 reqOnePhrase
      ⟨"application/pdf"⟩ "For Alice" rfl rfl rfl).1
      [Effect.mkdirSession,
       Effect.applyWatermarkCall "For Alice" "output/s1/For_Alice.pdf"]
      "boom" (by with_unfolding_all rfl)).1,
   ((c8_processing_failures_500_cleanup alwaysOkComp (some "disk full") "s1" 7
      reqTwoPhrases ⟨"application/pdf"⟩ "For Alice, For Bob" rfl rfl rfl).2
      [Effect.mkdirSession,
       Effect.applyWatermarkCall "For Alice" "output/s1/For_Alice.pdf",
       Effect.applyWatermarkCall "For Bob" "output/s1/For_Bob.pdf"]
      ["output/s1/For_Alice.pdf", "output/s1/For_Bob.pdf"] "disk full"
      rfl (by decide) (by with_unfolding_all rfl)).1⟩
